import Mathlib

/-!
Verification development for the data-lake ETL script (src/etl.py).

The script is a batch ETL job: it reads song-catalog records and event-log
records as typed JSON, derives four dimension tables (songs, artists, users,
time) and one fact table (songplays), and writes them to object storage as
partitioned columnar files, fully overwriting prior contents.

Shallow embedding choices:
  - Dataframes are Lists of typed rows.  Every column read from JSON is
    nullable, so every record field is an Option.
  - Doubles (latitude, longitude, duration, length, registration) are only
    copied and compared for equality, never computed on, so they are
    modelled as exact rationals (Rat).
  - The Spark timestamp produced by (ts / 1000).cast('timestamp') has
    microsecond precision; for event ts values the double division is exact,
    so the timestamp is modelled as microseconds since the epoch:
    ts milliseconds map to ts * 1000 microseconds.
  - select / selectExpr become row-constructor maps, filter becomes
    List.filter, distinct becomes List.dedup, and the SQL cross join with a
    WHERE clause becomes nested flatMap with a boolean match condition.
  - Object storage is a Storage record holding the five output tables; a
    partitioned overwrite write is a functional record update.
-/

namespace Etl

/-- Column types appearing in the two schema strings of etl.py. -/
inductive ColType
  | string
  | int
  | long
  | double
deriving DecidableEq

/-- Song schema, transcribed from the spark.read.schema string of
process_song_data (etl.py lines 44-55), in source order. -/
def songSchema : List (String × ColType) :=
  [("song_id", ColType.string),
   ("num_songs", ColType.int),
   ("artist_id", ColType.string),
   ("artist_latitude", ColType.double),
   ("artist_longitude", ColType.double),
   ("artist_location", ColType.string),
   ("artist_name", ColType.string),
   ("title", ColType.string),
   ("duration", ColType.double),
   ("year", ColType.int)]

/-- Event schema, transcribed from the spark.read.schema string of
process_log_data (etl.py lines 94-113), in source order. -/
def eventSchema : List (String × ColType) :=
  [("artist", ColType.string),
   ("auth", ColType.string),
   ("first_name", ColType.string),
   ("gender", ColType.string),
   ("item_in_session", ColType.int),
   ("last_name", ColType.string),
   ("length", ColType.double),
   ("level", ColType.string),
   ("location", ColType.string),
   ("method", ColType.string),
   ("page", ColType.string),
   ("registration", ColType.double),
   ("session_id", ColType.long),
   ("song", ColType.string),
   ("status", ColType.int),
   ("ts", ColType.long),
   ("user_agent", ColType.string),
   ("user_id", ColType.long)]

/-- Modelled from the spec: the Schema Catalog dispatch function does not
exist as a separate function in src/etl.py (the two schemas are inline
strings inside the pipeline functions); the spec describes a catalog that
maps a source identifier to its column list and fails on anything else.
The column lists themselves are the ones transcribed from the source. -/
def schemaCatalog (src : String) : Option (List (String × ColType)) :=
  if src = "song" then some songSchema
  else if src = "event" then some eventSchema
  else none

/-- Event-record column list as enumerated in section 3 of the spec
(EventRecord), kept for comparison with the source schema.  The spec
enumerates last_name directly after first_name, before gender and
item_in_session. -/
def specEventSchema : List (String × ColType) :=
  [("artist", ColType.string),
   ("auth", ColType.string),
   ("first_name", ColType.string),
   ("last_name", ColType.string),
   ("gender", ColType.string),
   ("item_in_session", ColType.int),
   ("length", ColType.double),
   ("level", ColType.string),
   ("location", ColType.string),
   ("method", ColType.string),
   ("page", ColType.string),
   ("registration", ColType.double),
   ("session_id", ColType.long),
   ("song", ColType.string),
   ("status", ColType.int),
   ("ts", ColType.long),
   ("user_agent", ColType.string),
   ("user_id", ColType.long)]

/-- Song-record column list as enumerated in section 3 of the spec
(SongRecord), kept for comparison with the source schema. -/
def specSongSchema : List (String × ColType) :=
  [("song_id", ColType.string),
   ("num_songs", ColType.int),
   ("artist_id", ColType.string),
   ("artist_latitude", ColType.double),
   ("artist_longitude", ColType.double),
   ("artist_location", ColType.string),
   ("artist_name", ColType.string),
   ("title", ColType.string),
   ("duration", ColType.double),
   ("year", ColType.int)]

/-- Raw song-catalog record, one per input JSON line, typed per songSchema.
Every column of a schema-directed JSON read is nullable. -/
structure SongRecord where
  song_id : Option String
  num_songs : Option Int
  artist_id : Option String
  artist_latitude : Option Rat
  artist_longitude : Option Rat
  artist_location : Option String
  artist_name : Option String
  title : Option String
  duration : Option Rat
  year : Option Int
deriving DecidableEq

/-- Raw event-log record, one per input JSON line, typed per eventSchema. -/
structure EventRecord where
  artist : Option String
  auth : Option String
  first_name : Option String
  gender : Option String
  item_in_session : Option Int
  last_name : Option String
  length : Option Rat
  level : Option String
  location : Option String
  method : Option String
  page : Option String
  registration : Option Rat
  session_id : Option Int
  song : Option String
  status : Option Int
  ts : Option Int
  user_agent : Option String
  user_id : Option Int
deriving DecidableEq

/-- Row of the songs dimension table: etl.py line 58. -/
structure SongRow where
  song_id : Option String
  title : Option String
  artist_id : Option String
  year : Option Int
  duration : Option Rat
deriving DecidableEq

/-- Row of the artists dimension table: etl.py lines 64-68. -/
structure ArtistRow where
  artist_id : Option String
  name : Option String
  location : Option String
  latitude : Option Rat
  longitude : Option Rat
deriving DecidableEq

/-- Row of the users dimension table: etl.py line 119. -/
structure UserRow where
  user_id : Option Int
  first_name : Option String
  last_name : Option String
  gender : Option String
  level : Option String
deriving DecidableEq

/-- Row of the time dimension table: etl.py lines 128-134.  start_time is
the event timestamp in microseconds since the epoch; the calendar columns
are nullable ints. -/
structure TimeRow where
  start_time : Option Int
  hour : Option Int
  day : Option Int
  week : Option Int
  month : Option Int
  year : Option Int
  weekday : Option Int
deriving DecidableEq

/-- Row of the songplays fact table: the SELECT list of etl.py lines
151-168.  The first column is event_ts, exactly as the SQL names it (the
SELECT does not alias it). -/
structure SongplayRow where
  event_ts : Option Int
  year : Option Int
  month : Option Int
  user_id : Option Int
  level : Option String
  session_id : Option Int
  location : Option String
  user_agent : Option String
  song_id : Option String
  artist_id : Option String
deriving DecidableEq

/-- Output column names of the songplays fact table, in the order of the
SELECT list of etl.py lines 152-162. -/
def songplaysColumns : List String :=
  ["event_ts", "year", "month", "user_id", "level", "session_id",
   "location", "user_agent", "song_id", "artist_id"]

/-- Partition columns of the songplays write: etl.py line 171. -/
def songplaysPartitionBy : List String := ["year", "month"]

/-- Songplay column names as the spec (section 3) claims them: the spec
names the event-timestamp column start_time. -/
def specSongplayColumns : List String :=
  ["start_time", "year", "month", "user_id", "level", "session_id",
   "location", "user_agent", "song_id", "artist_id"]

/-- Projection of a song record to a songs-table row: etl.py line 58. -/
def toSongRow (r : SongRecord) : SongRow :=
  { song_id := r.song_id
    title := r.title
    artist_id := r.artist_id
    year := r.year
    duration := r.duration }

/-- songs_table = df.select(...).distinct(): etl.py line 58. -/
def songsTable (recs : List SongRecord) : List SongRow :=
  (recs.map toSongRow).dedup

/-- Projection of a song record to an artists-table row, with the renames
of etl.py lines 64-68. -/
def toArtistRow (r : SongRecord) : ArtistRow :=
  { artist_id := r.artist_id
    name := r.artist_name
    location := r.artist_location
    latitude := r.artist_latitude
    longitude := r.artist_longitude }

/-- artists_table = df.selectExpr(...).distinct(): etl.py lines 64-68. -/
def artistsTable (recs : List SongRecord) : List ArtistRow :=
  (recs.map toArtistRow).dedup

/-- The song-play filter of etl.py line 116:
df.filter("page = 'NextSong' AND status = 200").  SQL equality with a null
operand is not true, so a null page or status fails the predicate. -/
def playPred (e : EventRecord) : Bool :=
  e.page == some "NextSong" && e.status == some 200

/-- Projection of an event record to a users-table row: etl.py line 119. -/
def toUserRow (e : EventRecord) : UserRow :=
  { user_id := e.user_id
    first_name := e.first_name
    last_name := e.last_name
    gender := e.gender
    level := e.level }

/-- users_table = df.select(...).distinct() over the filtered events:
etl.py line 119. -/
def usersTable (evs : List EventRecord) : List UserRow :=
  ((evs.filter playPred).map toUserRow).dedup

/-- The event_ts column of etl.py line 125:
(col('ts') / 1000).cast('timestamp').  ts is epoch milliseconds; the
resulting timestamp has microsecond precision, so as microseconds since
the epoch it equals ts * 1000 (the double division by 1000 is exact for
integers of this magnitude and the cast keeps the millisecond fraction). -/
def eventTs (e : EventRecord) : Option Int :=
  e.ts.map (fun t => t * 1000)

/-- Whole days since the epoch of a microsecond timestamp (floor). -/
def microsToDays (m : Int) : Int := m.ediv 86400000000

/-- Modelled from the spec: the engine builtin hour() is not part of
src/etl.py; per the spec the calendar columns are deterministic functions
of the timestamp under a fixed (UTC, Gregorian) convention.  Hour of day
of a microsecond timestamp. -/
def microsHour (m : Int) : Int := ((m.ediv 3600000000).emod 24)

/-- Gregorian civil date (year, month, day) from whole days since the
epoch, by the standard era-decomposition algorithm, used to model the
engine builtins day(), month(), year(). -/
def civilFromDays (z0 : Int) : Int × Int × Int :=
  let z := z0 + 719468
  let era := z.ediv 146097
  let doe := z - era * 146097
  let yoe := (doe - doe.ediv 1460 + doe.ediv 36524 - doe.ediv 146096).ediv 365
  let y := yoe + era * 400
  let doy := doe - (365 * yoe + yoe.ediv 4 - yoe.ediv 100)
  let mp := (5 * doy + 2).ediv 153
  let d := doy - (153 * mp + 2).ediv 5 + 1
  let mo := mp + (if mp < 10 then 3 else -9)
  (y + (if mo ≤ 2 then 1 else 0), mo, d)

/-- Modelled from the spec: engine builtin day(). -/
def microsDay (m : Int) : Int := (civilFromDays (microsToDays m)).2.2

/-- Modelled from the spec: engine builtin month(). -/
def microsMonth (m : Int) : Int := (civilFromDays (microsToDays m)).2.1

/-- Modelled from the spec: engine builtin year(). -/
def microsYear (m : Int) : Int := (civilFromDays (microsToDays m)).1

/-- Modelled from the spec: engine builtin dayofweek(), 1 = Sunday through
7 = Saturday; day 0 of the epoch is a Thursday. -/
def microsWeekday (m : Int) : Int := ((microsToDays m + 4).emod 7) + 1

/-- ISO weekday, 1 = Monday through 7 = Sunday, of whole days since the
epoch. -/
def isoWeekday (days : Int) : Int := ((days + 3).emod 7) + 1

/-- Gregorian leap-year test. -/
def isLeap (y : Int) : Bool :=
  (y.emod 4 == 0 && y.emod 100 != 0) || y.emod 400 == 0

/-- Day-of-year (1-based) of a civil date. -/
def dayOfYear (y mo d : Int) : Int :=
  let cum : Int :=
    if mo = 1 then 0 else if mo = 2 then 31 else if mo = 3 then 59
    else if mo = 4 then 90 else if mo = 5 then 120 else if mo = 6 then 151
    else if mo = 7 then 181 else if mo = 8 then 212 else if mo = 9 then 243
    else if mo = 10 then 273 else if mo = 11 then 304 else 334
  cum + d + (if 2 < mo && isLeap y then 1 else 0)

/-- Weekday index used by the 53-week test of the ISO week calendar. -/
def isoP (y : Int) : Int :=
  (y + y.ediv 4 - y.ediv 100 + y.ediv 400).emod 7

/-- Number of ISO weeks (52 or 53) in a Gregorian year. -/
def isoWeekCount (y : Int) : Int :=
  if isoP y = 4 ∨ isoP (y - 1) = 3 then 53 else 52

/-- Modelled from the spec: engine builtin weekofyear(), the ISO
week-of-year of a microsecond timestamp. -/
def microsWeek (m : Int) : Int :=
  let days := microsToDays m
  let c := civilFromDays days
  let w := (dayOfYear c.1 c.2.1 c.2.2 - isoWeekday days + 10).ediv 7
  if w < 1 then isoWeekCount (c.1 - 1)
  else if isoWeekCount c.1 < w then 1 else w

/-- Projection of a filtered event to a time-table row: etl.py lines
128-134.  Every calendar column is the corresponding function of the
event_ts timestamp, null when ts is null. -/
def toTimeRow (e : EventRecord) : TimeRow :=
  { start_time := eventTs e
    hour := (eventTs e).map microsHour
    day := (eventTs e).map microsDay
    week := (eventTs e).map microsWeek
    month := (eventTs e).map microsMonth
    year := (eventTs e).map microsYear
    weekday := (eventTs e).map microsWeekday }

/-- time_table = df.selectExpr(...).distinct() over the filtered events:
etl.py lines 128-134. -/
def timeTable (evs : List EventRecord) : List TimeRow :=
  ((evs.filter playPred).map toTimeRow).dedup

/-- SQL equality on two nullable strings: true only when both are non-null
and equal (a null operand makes the comparison not-true). -/
def optStrEq : Option String → Option String → Bool
  | some a, some b => a == b
  | _, _ => false

/-- The SELECT list of the songplays query (etl.py lines 152-162) applied
to one joined (event, song, artist) triple. -/
def songplayProject (ev : EventRecord) (s : SongRow) (a : ArtistRow) : SongplayRow :=
  { event_ts := eventTs ev
    year := (eventTs ev).map microsYear
    month := (eventTs ev).map microsMonth
    user_id := ev.user_id
    level := ev.level
    session_id := ev.session_id
    location := ev.location
    user_agent := ev.user_agent
    song_id := s.song_id
    artist_id := a.artist_id }

/-- The songplays query of etl.py lines 151-168: SELECT DISTINCT over the
cross join of the filtered events with the songs and artists tables,
restricted by ev.song = s.title AND ev.artist = a.name.  There is no
condition relating s.artist_id to a.artist_id. -/
def songplaysTable (songRows : List SongRow) (artistRows : List ArtistRow)
    (evs : List EventRecord) : List SongplayRow :=
  (((evs.filter playPred).flatMap fun ev =>
    songRows.flatMap fun s =>
      artistRows.filterMap fun a =>
        if optStrEq ev.song s.title && optStrEq ev.artist a.name then
          some (songplayProject ev s a)
        else none)).dedup

/-- Object storage as seen by the job: the five output table locations.
A write with mode('overwrite') fully replaces one field. -/
structure Storage where
  songs : List SongRow
  artists : List ArtistRow
  users : List UserRow
  time : List TimeRow
  songplays : List SongplayRow
deriving DecidableEq

/-- The raw inputs of one run: song records and event records. -/
structure Inputs where
  songRecords : List SongRecord
  eventRecords : List EventRecord

/-- process_song_data (etl.py lines 25-71): writes the songs and artists
dimension tables, overwriting prior contents. -/
def processSongData (inp : Inputs) (st : Storage) : Storage :=
  { st with
    songs := songsTable inp.songRecords
    artists := artistsTable inp.songRecords }

/-- process_log_data (etl.py lines 74-171): writes users and time from the
filtered events, then reads the songs and artists tables back from storage
and writes the songplays fact table, each write overwriting prior
contents. -/
def processLogData (inp : Inputs) (st : Storage) : Storage :=
  { st with
    users := usersTable inp.eventRecords
    time := timeTable inp.eventRecords
    songplays := songplaysTable st.songs st.artists inp.eventRecords }

/-- One full run of main (etl.py lines 174-185): Song Pipeline then Log
Pipeline, in that order. -/
def mainRun (inp : Inputs) (st : Storage) : Storage :=
  processLogData inp (processSongData inp st)

/-- Steps of the driver that are observable for resource accounting. -/
inductive DriverAction
  | acquireSession
  | songPipeline
  | logPipeline
  | stopSession
deriving DecidableEq

/-- Control flow of main (etl.py lines 174-185) with failure injection:
the session is acquired, then process_song_data runs, then (if it did not
raise) process_log_data runs, then (if neither raised) spark.stop() runs.
There is no try/finally around the pipeline calls, so an exception
propagates past the spark.stop() line. -/
def mainTrace (songRaises logRaises : Bool) : List DriverAction :=
  DriverAction.acquireSession ::
    DriverAction.songPipeline ::
      (if songRaises then [] else
        DriverAction.logPipeline ::
          (if logRaises then [] else [DriverAction.stopSession]))

/-- Number of times the driver releases the engine session on a run with
the given failure pattern. -/
def sessionReleases (songRaises logRaises : Bool) : Nat :=
  (mainTrace songRaises logRaises).count DriverAction.stopSession

/-- The song-play event of the scenario in section 8 of the spec. -/
def ev1 : EventRecord :=
  { artist := some "Adele", auth := some "Logged In", first_name := some "Ann",
    gender := some "F", item_in_session := some 1, last_name := some "Lee",
    length := some 295, level := some "paid", location := some "NYC",
    method := some "PUT", page := some "NextSong", registration := some 1,
    session_id := some 42, song := some "Hello", status := some 200,
    ts := some 1500000000000, user_agent := some "UA1", user_id := some 7 }

/-- Songs-table row for the catalog record of the section 8 scenario. -/
def s1 : SongRow :=
  { song_id := some "S1", title := some "Hello", artist_id := some "A1",
    year := some 2015, duration := some 295 }

/-- Artists-table row owning song S1. -/
def a1 : ArtistRow :=
  { artist_id := some "A1", name := some "Adele", location := some "UK",
    latitude := none, longitude := none }

/-- A second artists-table row with the same name but a different
artist_id, not the owner of song S1. -/
def a2 : ArtistRow :=
  { artist_id := some "A2", name := some "Adele", location := none,
    latitude := none, longitude := none }

/-- The time-table row produced for ev1: its ts is 1500000000000 ms, which
is 2017-07-14 02:40:00 UTC, ISO week 28, a Friday (dayofweek 6). -/
def timeRow1 : TimeRow :=
  { start_time := some 1500000000000000, hour := some 2, day := some 14,
    week := some 28, month := some 7, year := some 2017, weekday := some 6 }

/-- An event that is not a song play: page is PageView, so the filter of
etl.py line 116 rejects it. -/
def evPageView : EventRecord :=
  { artist := some "Adele", auth := some "Logged In", first_name := some "Ann",
    gender := some "F", item_in_session := some 2, last_name := some "Lee",
    length := none, level := some "paid", location := some "NYC",
    method := some "GET", page := some "PageView", registration := some 1,
    session_id := some 42, song := none, status := some 200,
    ts := some 1500000000000, user_agent := some "UA1", user_id := some 7 }

/-- A filtered (NextSong, 200) event whose song field is null. -/
def evNullSong : EventRecord :=
  { ev1 with song := none }

/-- A filtered (NextSong, 200) event whose artist field is null. -/
def evNullArtist : EventRecord :=
  { ev1 with artist := none }

/-- A catalog songs-table row whose title is null. -/
def sNullTitle : SongRow :=
  { song_id := some "S9", title := none, artist_id := some "A9",
    year := some 0, duration := none }

/-- A catalog artists-table row whose name is null. -/
def aNullName : ArtistRow :=
  { artist_id := some "A9", name := none, location := none,
    latitude := none, longitude := none }

/-- Membership in the songplays table: a row is in the output exactly when
it is the projection of a filtered event joined with a songs row and an
artists row under the null-rejecting string-equality conditions of the
WHERE clause. -/
theorem mem_songplaysTable (songRows : List SongRow)
    (artistRows : List ArtistRow) (evs : List EventRecord) (r : SongplayRow) :
    r ∈ songplaysTable songRows artistRows evs ↔
      ∃ ev ∈ evs, playPred ev = true ∧ ∃ s ∈ songRows, ∃ a ∈ artistRows,
        optStrEq ev.song s.title = true ∧ optStrEq ev.artist a.name = true ∧
        r = songplayProject ev s a := by
  rw [songplaysTable, List.mem_dedup]
  constructor
  · intro hr
    obtain ⟨ev, hev, hr⟩ := List.mem_flatMap.mp hr
    obtain ⟨s, hs, hr⟩ := List.mem_flatMap.mp hr
    obtain ⟨a, ha, hfa⟩ := List.mem_filterMap.mp hr
    rw [List.mem_filter] at hev
    by_cases hc : (optStrEq ev.song s.title && optStrEq ev.artist a.name) = true
    · rw [if_pos hc] at hfa
      obtain ⟨hc1, hc2⟩ := Bool.and_eq_true_iff.mp hc
      exact ⟨ev, hev.1, hev.2, s, hs, a, ha, hc1, hc2, (Option.some_inj.mp hfa).symm⟩
    · rw [if_neg hc] at hfa
      cases hfa
  · rintro ⟨ev, hev, hp, s, hs, a, ha, h1, h2, rfl⟩
    refine List.mem_flatMap.mpr ⟨ev, List.mem_filter.mpr ⟨hev, hp⟩, ?_⟩
    refine List.mem_flatMap.mpr ⟨s, hs, ?_⟩
    refine List.mem_filterMap.mpr ⟨a, ha, ?_⟩
    rw [if_pos (by rw [h1, h2]; rfl)]

/-- The songplays table carries no duplicate rows (SELECT DISTINCT). -/
theorem songplaysTable_nodup (songRows : List SongRow)
    (artistRows : List ArtistRow) (evs : List EventRecord) :
    (songplaysTable songRows artistRows evs).Nodup :=
  List.nodup_dedup _

/-- C1, counterexample: on the run where the Song Pipeline raises, the
driver releases the session zero times, not once — main has no try/finally
around the pipeline calls, so spark.stop() is skipped on the error path. -/
theorem c1_counterexample : sessionReleases true false ≠ 1 := by decide

/-- C1, amended: the driver acquires the session exactly once on every
run, but releases it exactly once only when both pipelines complete
normally; when either pipeline raises, the session is never released. -/
theorem c1_session_release (songRaises logRaises : Bool) :
    (mainTrace songRaises logRaises).count DriverAction.acquireSession = 1 ∧
    sessionReleases songRaises logRaises =
      (if songRaises || logRaises then 0 else 1) := by
  cases songRaises <;> cases logRaises <;> decide

/-- C2, counterexample: the songplays SELECT list does not alias event_ts,
so the fact table's column list differs from the spec's claimed list whose
first column is start_time. -/
theorem c2_counterexample : songplaysColumns ≠ specSongplayColumns := by
  decide

/-- C2, amended: the songplays fact table has exactly the ten claimed
columns in the claimed order except that the event-timestamp column keeps
the SQL name event_ts rather than start_time, and the table is partitioned
by year then month. -/
theorem c2_songplay_columns :
    songplaysColumns.head? = some "event_ts" ∧
    songplaysColumns.tail = specSongplayColumns.tail ∧
    songplaysColumns.length = 10 ∧
    songplaysPartitionBy = ["year", "month"] := by
  decide

/-- C3, counterexample: the event schema of the source lists gender and
item_in_session between first_name and last_name, so the catalog's answer
for the event source is not the section 3 enumeration order. -/
theorem c3_counterexample :
    schemaCatalog "event" = some eventSchema ∧
    eventSchema ≠ specEventSchema := by
  constructor
  · rfl
  · decide

/-- C3, amended: the Schema Catalog returns for the song source exactly
the section 3 list, and for the event source a permutation of the section
3 list (same names and types, with last_name placed after item_in_session
as in the source schema string); it answers none exactly on unknown
source identifiers. -/
theorem c3_schema_catalog (src : String)
    (h : src ≠ "song" ∧ src ≠ "event") :
    schemaCatalog "song" = some specSongSchema ∧
    schemaCatalog "event" = some eventSchema ∧
    eventSchema.Perm specEventSchema ∧
    schemaCatalog src = none := by
  refine ⟨rfl, rfl, by decide, ?_⟩
  simp [schemaCatalog, h.1, h.2]

/-- C3, witness: the catalog answers none on the unknown identifier
users, and answers the transcribed schemas on song and event. -/
theorem c3_schema_catalog_witness :
    ("users" ≠ "song" ∧ "users" ≠ "event") ∧
    (schemaCatalog "song" = some specSongSchema ∧
     schemaCatalog "event" = some eventSchema ∧
     eventSchema.Perm specEventSchema ∧
     schemaCatalog "users" = none) :=
  ⟨by decide, c3_schema_catalog "users" (by decide)⟩

/-- C5: an event failing the song-play filter (page NextSong with status
200) contributes to none of the users, time, or songplays tables: adding
such an event to the input leaves all three outputs unchanged. -/
theorem c5_filter_scope (evs : List EventRecord) (e : EventRecord)
    (songRows : List SongRow) (artistRows : List ArtistRow)
    (h : playPred e = false) :
    usersTable (e :: evs) = usersTable evs ∧
    timeTable (e :: evs) = timeTable evs ∧
    songplaysTable songRows artistRows (e :: evs) =
      songplaysTable songRows artistRows evs := by
  refine ⟨?_, ?_, ?_⟩ <;>
    simp [usersTable, timeTable, songplaysTable, List.filter_cons, h]

/-- C5, witness: the PageView event fails the filter and adding it to an
empty input changes none of the three outputs. -/
theorem c5_filter_scope_witness :
    playPred evPageView = false ∧
    (usersTable [evPageView] = usersTable [] ∧
     timeTable [evPageView] = timeTable [] ∧
     songplaysTable [s1] [a1] [evPageView] = songplaysTable [s1] [a1] []) :=
  ⟨by decide, c5_filter_scope [] evPageView [s1] [a1] (by decide)⟩

/-- C6: every output dimension table (songs, artists, users, time) is
duplicate-free for every input record set, by the distinct() applied to
each projection. -/
theorem c6_dimensions_nodup (songRecs : List SongRecord)
    (evs : List EventRecord) :
    (songsTable songRecs).Nodup ∧ (artistsTable songRecs).Nodup ∧
    (usersTable evs).Nodup ∧ (timeTable evs).Nodup :=
  ⟨List.nodup_dedup _, List.nodup_dedup _,
   List.nodup_dedup _, List.nodup_dedup _⟩

/-- C8: a full run overwrites every output table with a value computed
only from the inputs (the fact table reads back the songs and artists
tables written earlier in the same run), so running the pipeline twice on
the same inputs leaves storage exactly as one run does. -/
theorem c8_idempotent (inp : Inputs) (st : Storage) :
    mainRun inp (mainRun inp st) = mainRun inp st := rfl

/-- SQL equality against a null left operand is never true. -/
theorem optStrEq_none_left (x : Option String) : optStrEq none x = false := by
  cases x <;> rfl

/-- C4: join completeness and exactness — a row is in the songplays table
exactly when it is the projection of a filtered (NextSong, 200) event
joined to a songs row and an artists row with event.song equal to the
title and event.artist equal to the name; and every such matching triple
contributes its projected row exactly once. -/
theorem c4_join_exact (songRows : List SongRow) (artistRows : List ArtistRow)
    (evs : List EventRecord) :
    (∀ r, r ∈ songplaysTable songRows artistRows evs ↔
      ∃ ev ∈ evs, playPred ev = true ∧ ∃ s ∈ songRows, ∃ a ∈ artistRows,
        optStrEq ev.song s.title = true ∧ optStrEq ev.artist a.name = true ∧
        r = songplayProject ev s a) ∧
    (∀ ev ∈ evs, playPred ev = true → ∀ s ∈ songRows, ∀ a ∈ artistRows,
      optStrEq ev.song s.title = true → optStrEq ev.artist a.name = true →
      (songplaysTable songRows artistRows evs).count
        (songplayProject ev s a) = 1) := by
  refine ⟨mem_songplaysTable songRows artistRows evs, ?_⟩
  intro ev hev hp s hs a ha h1 h2
  exact List.count_eq_one_of_mem (songplaysTable_nodup _ _ _)
    ((mem_songplaysTable _ _ _ _).mpr ⟨ev, hev, hp, s, hs, a, ha, h1, h2, rfl⟩)

/-- C4, witness: the section 8 scenario — the Adele/Hello event joined
with catalog row S1 and artist row A1 appears exactly once in the fact
table. -/
theorem c4_join_exact_witness :
    (ev1 ∈ [ev1] ∧ playPred ev1 = true ∧ s1 ∈ [s1] ∧ a1 ∈ [a1] ∧
     optStrEq ev1.song s1.title = true ∧
     optStrEq ev1.artist a1.name = true) ∧
    songplayProject ev1 s1 a1 ∈ songplaysTable [s1] [a1] [ev1] ∧
    (songplaysTable [s1] [a1] [ev1]).count (songplayProject ev1 s1 a1) = 1 := by
  refine ⟨by decide, ?_, ?_⟩
  · exact ((c4_join_exact [s1] [a1] [ev1]).1 _).mpr
      ⟨ev1, by decide, by decide, s1, by decide, a1, by decide,
       by decide, by decide, rfl⟩
  · exact (c4_join_exact [s1] [a1] [ev1]).2 ev1 (by decide) (by decide)
      s1 (by decide) a1 (by decide) (by decide) (by decide)

/-- C7: every time-table row comes from a filtered event, its start_time
is the timestamp of the event's ts divided by 1000 (held exactly, in
microseconds), each calendar column is the fixed UTC Gregorian function of
start_time, and rows with equal start_time are equal (the calendar columns
are deterministic functions of the timestamp). -/
theorem c7_time_semantics (evs : List EventRecord) (r r2 : TimeRow)
    (h : r ∈ timeTable evs) (h2 : r2 ∈ timeTable evs) :
    (∃ ev ∈ evs, playPred ev = true ∧
      r.start_time = ev.ts.map (fun t => t * 1000) ∧
      r.hour = r.start_time.map microsHour ∧
      r.day = r.start_time.map microsDay ∧
      r.week = r.start_time.map microsWeek ∧
      r.month = r.start_time.map microsMonth ∧
      r.year = r.start_time.map microsYear ∧
      r.weekday = r.start_time.map microsWeekday) ∧
    (r.start_time = r2.start_time → r = r2) := by
  rw [timeTable, List.mem_dedup] at h h2
  obtain ⟨ev, hev, rfl⟩ := List.mem_map.mp h
  obtain ⟨ev2, hev2, rfl⟩ := List.mem_map.mp h2
  rw [List.mem_filter] at hev hev2
  refine ⟨⟨ev, hev.1, hev.2, rfl, rfl, rfl, rfl, rfl, rfl, rfl⟩, ?_⟩
  intro hst
  have hts : eventTs ev = eventTs ev2 := hst
  simp [toTimeRow, hts]

/-- C7, witness: the time row of the ts = 1500000000000 event has
start_time 1500000000000000 microseconds (2017-07-14 02:40:00 UTC) and
calendar columns hour 2, day 14, week 28, month 7, year 2017, weekday 6,
each the stated function of start_time. -/
theorem c7_time_semantics_witness :
    (timeRow1 ∈ timeTable [ev1]) ∧
    ((∃ ev ∈ [ev1], playPred ev = true ∧
      timeRow1.start_time = ev.ts.map (fun t => t * 1000) ∧
      timeRow1.hour = timeRow1.start_time.map microsHour ∧
      timeRow1.day = timeRow1.start_time.map microsDay ∧
      timeRow1.week = timeRow1.start_time.map microsWeek ∧
      timeRow1.month = timeRow1.start_time.map microsMonth ∧
      timeRow1.year = timeRow1.start_time.map microsYear ∧
      timeRow1.weekday = timeRow1.start_time.map microsWeekday) ∧
     (timeRow1.start_time = timeRow1.start_time → timeRow1 = timeRow1)) :=
  ⟨by decide, c7_time_semantics [ev1] timeRow1 timeRow1 (by decide) (by decide)⟩

/-- C9: the songplays join places no condition between the songs row and
the artists row — any filtered event, any songs row with matching title,
and any artists row with matching name produce a fact row, with no
requirement that the song belong to that artist; concretely, one event
matched by one song and two same-named artists yields two fact rows, one
of them pairing song S1 with the non-owning artist A2. -/
theorem c9_join_ignores_ownership (songRows : List SongRow)
    (artistRows : List ArtistRow) (evs : List EventRecord)
    (ev : EventRecord) (s : SongRow) (a : ArtistRow)
    (hev : ev ∈ evs) (hp : playPred ev = true) (hs : s ∈ songRows)
    (ha : a ∈ artistRows) (h1 : optStrEq ev.song s.title = true)
    (h2 : optStrEq ev.artist a.name = true) :
    songplayProject ev s a ∈ songplaysTable songRows artistRows evs ∧
    s1.artist_id ≠ a2.artist_id ∧
    songplayProject ev1 s1 a2 ∈ songplaysTable [s1] [a1, a2] [ev1] ∧
    (songplaysTable [s1] [a1, a2] [ev1]).length = 2 :=
  ⟨(mem_songplaysTable _ _ _ _).mpr ⟨ev, hev, hp, s, hs, a, ha, h1, h2, rfl⟩,
   by decide, by decide, by decide⟩

/-- C9, witness: instantiated at the event matched by song S1 and the
non-owning artist A2. -/
theorem c9_join_ignores_ownership_witness :
    (ev1 ∈ [ev1] ∧ playPred ev1 = true ∧ s1 ∈ [s1] ∧ a2 ∈ [a1, a2] ∧
     optStrEq ev1.song s1.title = true ∧
     optStrEq ev1.artist a2.name = true) ∧
    (songplayProject ev1 s1 a2 ∈ songplaysTable [s1] [a1, a2] [ev1] ∧
     s1.artist_id ≠ a2.artist_id ∧
     songplayProject ev1 s1 a2 ∈ songplaysTable [s1] [a1, a2] [ev1] ∧
     (songplaysTable [s1] [a1, a2] [ev1]).length = 2) :=
  ⟨by decide, c9_join_ignores_ownership [s1] [a1, a2] [ev1] ev1 s1 a2
      (by decide) (by decide) (by decide) (by decide) (by decide) (by decide)⟩

/-- C10: a filtered event with a null song field or a null artist field
never satisfies the join conditions, so when every filtered event has one
of the two fields null the songplays table is empty — even against catalog
rows whose title or name is itself null. -/
theorem c10_null_join_fields (songRows : List SongRow)
    (artistRows : List ArtistRow) (evs : List EventRecord)
    (h : ∀ ev ∈ evs, playPred ev = true → ev.song = none ∨ ev.artist = none) :
    songplaysTable songRows artistRows evs = [] := by
  rw [List.eq_nil_iff_forall_not_mem]
  intro r hr
  obtain ⟨ev, hev, hp, s, hs, a, ha, h1, h2, -⟩ :=
    (mem_songplaysTable _ _ _ _).mp hr
  rcases h ev hev hp with hnull | hnull
  · rw [hnull, optStrEq_none_left] at h1
    cases h1
  · rw [hnull, optStrEq_none_left] at h2
    cases h2

/-- C10, witness: one event with null song and one with null artist,
against a catalog holding a null-title songs row and a null-name artists
row (besides real rows), produce an empty fact table. -/
theorem c10_null_join_fields_witness :
    (∀ ev ∈ [evNullSong, evNullArtist], playPred ev = true →
      ev.song = none ∨ ev.artist = none) ∧
    songplaysTable [s1, sNullTitle] [a1, aNullName]
      [evNullSong, evNullArtist] = [] :=
  ⟨by decide, c10_null_join_fields [s1, sNullTitle] [a1, aNullName]
      [evNullSong, evNullArtist] (by decide)⟩

end Etl
